import Mathlib

/-!
Verification of the metrics aggregation and normalization pipeline of the
YouTube channel analyzer (src/youtube_analyzer.py, src/app.py).

The Python source is shallowly embedded: Python strings become `String`
(compared character by character, exactly as Python compares code points),
Python arbitrary-precision ints become `Nat`/`Int`, float division becomes
exact division in `ℚ`, and dictionaries whose keys matter become insertion
ordered association lists with Python dict update semantics.
-/

namespace YTA

/-! ## Character-list utilities

Python string primitives used by the source (`str.split(sep)`,
lexicographic `<` on strings, `int(s)`, substring membership,
`urllib.parse.unquote`) are modeled over `List Char`. -/

/-- Model of Python `s.split(sep)` for a one-character separator `c`:
splits at every occurrence of `c`, keeping empty pieces, so the result
always has (number of occurrences + 1) pieces. -/
def splitOnChar (c : Char) : List Char → List (List Char)
  | [] => [[]]
  | x :: xs =>
    if x = c then [] :: splitOnChar c xs
    else
      match splitOnChar c xs with
      | [] => [[x]]
      | y :: ys => (x :: y) :: ys

/-- Joins pieces with the separator `c`; inverse direction of `splitOnChar`,
used to model Python `s.split(sep, 1)[1]` (everything after the first
occurrence, with later occurrences kept). -/
def joinChar (c : Char) : List (List Char) → List Char
  | [] => []
  | [x] => x
  | x :: y :: ys => x ++ c :: joinChar c (y :: ys)

/-- Lexicographic comparison of character lists by code point, the ordering
Python uses for `str < str` (all timestamps compared by the source are
ASCII, where code-point order is the textual order). -/
def charListLt : List Char → List Char → Bool
  | [], [] => false
  | [], _ :: _ => true
  | _ :: _, [] => false
  | a :: as, b :: bs =>
    if a.toNat < b.toNat then true
    else if b.toNat < a.toNat then false
    else charListLt as bs

/-- Model of Python `a < b` on strings. -/
def pyStrLt (a b : String) : Bool := charListLt a.toList b.toList

/-- True when `pre` is an initial segment of the second list. -/
def leadsWith : List Char → List Char → Bool
  | [], _ => true
  | _ :: _, [] => false
  | a :: as, b :: bs => a == b && leadsWith as bs

/-- Model of Python substring membership `needle in hay`. -/
def containsSub (needle : List Char) : List Char → Bool
  | [] => needle.isEmpty
  | c :: rest => leadsWith needle (c :: rest) || containsSub needle rest

/-- Decimal digits to a number; `none` when empty or a non-digit appears. -/
def digitsToNat? (l : List Char) : Option Nat :=
  if l.isEmpty then none
  else if l.all Char.isDigit then
    some (l.foldl (fun a c => a * 10 + (c.toNat - 48)) 0)
  else none

/-- Model of Python `int(s)` on the strings this source feeds it: an
optional sign followed by decimal digits; `none` models the `ValueError`
raised on anything else. -/
def pyInt? (l : List Char) : Option Int :=
  match l with
  | '-' :: rest => (digitsToNat? rest).map (fun n => -(n : Int))
  | '+' :: rest => (digitsToNat? rest).map Int.ofNat
  | _ => (digitsToNat? l).map Int.ofNat

/-! ## Date parsing and rendering (datetime.strptime / isoformat) -/

/-- A calendar date as accepted by `datetime.strptime(s, "%Y-%m-%d")`. -/
structure Date where
  year : Nat
  month : Nat
  day : Nat
deriving DecidableEq, Repr

def isLeap (y : Nat) : Bool := (y % 4 = 0 && y % 100 ≠ 0) || y % 400 = 0

def daysInMonth (y m : Nat) : Nat :=
  if m = 2 then (if isLeap y then 29 else 28)
  else if m = 4 || m = 6 || m = 9 || m = 11 then 30
  else 31

/-- Model of `datetime.datetime.strptime(s, "%Y-%m-%d")`: `%Y` is exactly
four digits, `%m` and `%d` are one or two digits, and the constructed
datetime validates 1 ≤ year, 1 ≤ month ≤ 12 and 1 ≤ day ≤ length of the
month (leap years included). `none` models the `ValueError` raised on any
other input. -/
def parseYMD? (s : String) : Option Date :=
  match splitOnChar '-' s.toList with
  | [ys, ms, ds] =>
    match digitsToNat? ys, digitsToNat? ms, digitsToNat? ds with
    | some y, some m, some d =>
      if ys.length = 4 && ms.length ≤ 2 && ds.length ≤ 2 &&
         1 ≤ y && 1 ≤ m && m ≤ 12 && 1 ≤ d && d ≤ daysInMonth y m then
        some ⟨y, m, d⟩
      else none
    | _, _, _ => none
  | _ => none

/-- Two-digit zero-padded decimal rendering (for months, days, h/m/s). -/
def pad2 (n : Nat) : String :=
  ⟨[Char.ofNat (48 + n / 10 % 10), Char.ofNat (48 + n % 10)]⟩

/-- Four-digit zero-padded decimal rendering (for years). -/
def pad4 (n : Nat) : String :=
  ⟨[Char.ofNat (48 + n / 1000 % 10), Char.ofNat (48 + n / 100 % 10),
    Char.ofNat (48 + n / 10 % 10), Char.ofNat (48 + n % 10)]⟩

/-- Model of `start_date_obj.isoformat() + 'Z'` for a date parsed at
midnight (youtube_analyzer.py line 108). -/
def dateToStartIso (d : Date) : String :=
  pad4 d.year ++ "-" ++ pad2 d.month ++ "-" ++ pad2 d.day ++ "T00:00:00Z"

/-- Model of the end-date normalization (youtube_analyzer.py lines 116-118):
the parsed date is moved to 23:59:59 before rendering. -/
def dateToEndIso (d : Date) : String :=
  pad4 d.year ++ "-" ++ pad2 d.month ++ "-" ++ pad2 d.day ++ "T23:59:59Z"

/-! ## Temporal filter (youtube_analyzer.retrieve_youtube_data, lines 93-141) -/

/-- One playlist item as far as the date filter reads it: its
`snippet.publishedAt` RFC-3339 timestamp string. -/
structure VideoItem where
  publishedAt : String
deriving DecidableEq, Repr

/-- The per-item criteria check (youtube_analyzer.py lines 123-139):
`meets_criteria` starts true and each present constraint can only veto. -/
def meetsCriteria (cutoffStr? startStr? endStr? : Option String)
    (it : VideoItem) : Bool :=
  (match cutoffStr? with
   | some c => !(pyStrLt it.publishedAt c)
   | none => true) &&
  (match startStr? with
   | some s => !(pyStrLt it.publishedAt s)
   | none => true) &&
  (match endStr? with
   | some e => !(pyStrLt e it.publishedAt)
   | none => true)

/-- The filtering loop: keep exactly the items meeting every present
constraint, in their original order. -/
def filterByDates (cutoffStr? startStr? endStr? : Option String)
    (items : List VideoItem) : List VideoItem :=
  items.filter (meetsCriteria cutoffStr? startStr? endStr?)

/-- The date-filter section of `retrieve_youtube_data` (lines 93-141).
`cutoffStr?` is the already rendered `cutoff_date_str` for the relative
`days_ago` window (computed by the datetime library from the current
time, hence a parameter here). An unparsable `start_date` or `end_date`
only triggers a printed warning: the corresponding `*_date_str` stays
`None` and filtering proceeds without that constraint. When no
constraint at all is supplied the filtering block is skipped entirely. -/
def retrieve_filter (cutoffStr? start_date? end_date? : Option String)
    (items : List VideoItem) : List VideoItem :=
  if cutoffStr?.isSome || start_date?.isSome || end_date?.isSome then
    filterByDates cutoffStr?
      (start_date?.bind (fun s => (parseYMD? s).map dateToStartIso))
      (end_date?.bind (fun e => (parseYMD? e).map dateToEndIso))
      items
  else items

/-- The date validation of the HTTP route `analyze_channel`
(src/app.py lines 58-73), run before `analyze_youtube_channel` is called:
returns `some errorMessage` (a 400 response) when a supplied date does not
parse, `none` when validation passes. -/
def validate_dates (start? end? : Option String) : Option String :=
  match start? with
  | some s =>
    match parseYMD? s with
    | none => some "start_date must be in YYYY-MM-DD format"
    | some _ =>
      match end? with
      | some e =>
        match parseYMD? e with
        | none => some "end_date must be in YYYY-MM-DD format"
        | some _ => none
      | none => none
  | none =>
    match end? with
    | some e =>
      match parseYMD? e with
      | none => some "end_date must be in YYYY-MM-DD format"
      | some _ => none
    | none => none

/-- The two items of the date-window scenario. -/
def itemJan : VideoItem := ⟨"2024-01-15T00:00:00Z"⟩

def itemFeb : VideoItem := ⟨"2024-02-01T00:00:00Z"⟩

end YTA

namespace YTA

/-! ## Claims C1, C8, C10 -/

/-- Claim C1, counterexample. The claim states that every temporal-filter
invocation with an unparsable date fails fast, surfacing the input error
before filtering. At the concrete input `start_date = "2024-02-30"`
(well-formed shape but an impossible date, so `strptime` raises), the
filter invocation does not fail: it returns a normally filtered item list
with the bad constraint silently dropped — the very behavior the claim
excludes. Only the HTTP route validates dates first; the CLI path reaches
this code unvalidated. -/
theorem C1_counterexample :
    parseYMD? "2024-02-30" = none ∧
    retrieve_filter none (some "2024-02-30") none [itemJan] = [itemJan] := by
  decide

/-- Claim C1, amended: the HTTP boundary (app.py analyze_channel) surfaces
an unparsable start or end date as an input error before the analyzer (and
hence any filtering) runs; the temporal filter itself
(retrieve_youtube_data) does not fail fast — given an unparsable date it
proceeds, filtering with that constraint dropped and the others kept. -/
theorem C1_amended :
    (∀ (s : String) (e? : Option String), parseYMD? s = none →
        (validate_dates (some s) e?).isSome = true) ∧
    (∀ (e : String) (s? : Option String), parseYMD? e = none →
        (validate_dates s? (some e)).isSome = true) ∧
    (∀ (c? : Option String) (s : String) (e? : Option String)
        (items : List VideoItem), parseYMD? s = none →
        retrieve_filter c? (some s) e? items
          = filterByDates c? none
              (e?.bind (fun e => (parseYMD? e).map dateToEndIso)) items) ∧
    (∀ (c? s? : Option String) (e : String) (items : List VideoItem),
        parseYMD? e = none →
        retrieve_filter c? s? (some e) items
          = filterByDates c?
              (s?.bind (fun s => (parseYMD? s).map dateToStartIso))
              none items) := by
  refine ⟨?_, ?_, ?_, ?_⟩
  · intro s e? h
    simp [validate_dates, h]
  · intro e s? h
    cases s? with
    | none => simp [validate_dates, h]
    | some s =>
      cases hs : parseYMD? s <;> simp [validate_dates, hs, h]
  · intro c? s e? items h
    simp [retrieve_filter, h]
  · intro c? s? e items h
    simp [retrieve_filter, h]

/-- Claim C1, witness for the amended statement at the concrete bad date
`"2024-02-30"`. -/
theorem C1_witness :
    parseYMD? "2024-02-30" = none ∧
    (validate_dates (some "2024-02-30") none).isSome = true ∧
    retrieve_filter none (some "2024-02-30") none [itemJan]
      = filterByDates none none
          ((none : Option String).bind
            (fun e => (parseYMD? e).map dateToEndIso)) [itemJan] :=
  ⟨by decide, C1_amended.1 "2024-02-30" none (by decide),
    C1_amended.2.2.1 none "2024-02-30" none [itemJan] (by decide)⟩

/-- Claim C8 (confirmed): the filter keeps exactly the items satisfying
every present constraint (AND semantics); a supplied absolute end date is
normalized to end of day 23:59:59 (and a start date to start of day); and
in the concrete window 2024-01-01 .. 2024-01-31 the item published
2024-01-15T00:00:00Z is admitted while 2024-02-01T00:00:00Z is rejected. -/
theorem C8_window :
    (∀ (c? s? e? : Option String) (items : List VideoItem) (it : VideoItem),
        it ∈ filterByDates c? s? e? items
          ↔ it ∈ items ∧
            (∀ c ∈ c?, pyStrLt it.publishedAt c = false) ∧
            (∀ s ∈ s?, pyStrLt it.publishedAt s = false) ∧
            (∀ e ∈ e?, pyStrLt e it.publishedAt = false)) ∧
    (parseYMD? "2024-01-31").map dateToEndIso = some "2024-01-31T23:59:59Z" ∧
    (parseYMD? "2024-01-01").map dateToStartIso = some "2024-01-01T00:00:00Z" ∧
    retrieve_filter none (some "2024-01-01") (some "2024-01-31")
        [itemJan, itemFeb] = [itemJan] := by
  refine ⟨?_, by decide, by decide, by decide⟩
  intro c? s? e? items it
  simp only [filterByDates, List.mem_filter, meetsCriteria,
    Bool.and_eq_true]
  cases c? <;> cases s? <;> cases e? <;>
    simp [Option.mem_def, Bool.not_eq_true', and_assoc]

/-- Claim C8, witness: the conjunctive characterization instantiated at the
concrete window and item list of the scenario. -/
theorem C8_witness :
    itemJan ∈ filterByDates none (some "2024-01-01T00:00:00Z")
        (some "2024-01-31T23:59:59Z") [itemJan, itemFeb]
      ↔ itemJan ∈ [itemJan, itemFeb] ∧
        (∀ c ∈ (none : Option String),
          pyStrLt itemJan.publishedAt c = false) ∧
        (∀ s ∈ some "2024-01-01T00:00:00Z",
          pyStrLt itemJan.publishedAt s = false) ∧
        (∀ e ∈ some "2024-01-31T23:59:59Z",
          pyStrLt e itemJan.publishedAt = false) :=
  C8_window.1 none (some "2024-01-01T00:00:00Z")
    (some "2024-01-31T23:59:59Z") [itemJan, itemFeb] itemJan

/-- Claim C10 (confirmed): with no relative window and no absolute start or
end date, the filtering block of `retrieve_youtube_data` is skipped and the
item list is returned unchanged, in its original order. -/
theorem C10_identity (items : List VideoItem) :
    retrieve_filter none none none items = items := by
  simp [retrieve_filter]

/-! ## Per-video statistics records

One element of `data['video_stats']['items']`, as far as the aggregators
read it: the `statistics.viewCount / likeCount / commentCount` fields
(absent fields default to 0 at each access site via `.get(..., 0)`) and
the `contentDetails.duration` ISO-8601 string (absent defaults to the
empty string, which the parser treats as 0 seconds). -/

structure Video where
  viewCount : Option Nat := none
  likeCount : Option Nat := none
  commentCount : Option Nat := none
  duration : Option String := none
deriving DecidableEq, Repr

/-- `int(video.get('statistics', {}).get('viewCount', 0))`. -/
def viewsOf (v : Video) : Nat := v.viewCount.getD 0

/-- `int(video.get('statistics', {}).get('likeCount', 0))`. -/
def likesOf (v : Video) : Nat := v.likeCount.getD 0

/-- `int(video.get('statistics', {}).get('commentCount', 0))`. -/
def commentsOf (v : Video) : Nat := v.commentCount.getD 0

/-! ## ISO-8601 duration parsing
(youtube_analyzer.calculate_video_averages, lines 1210-1240) -/

/-- The split-based duration parsing inside the `try` block (lines
1216-1237): hours are the digits between the first `T` and the first `H`,
minutes the part before the first `M` of the remainder, seconds the part
before the first `S` of the remainder. `none` models any exception
(IndexError from a missing piece, ValueError from `int`), in which case
the whole per-video contribution is discarded. -/
def parse_duration_core (dur : List Char) : Option Int := do
  let (secs1, rest1) ←
    if dur.contains 'H' then do
      let beforeH ← (splitOnChar 'H' dur).get? 0
      let hstr ← (splitOnChar 'T' beforeH).get? 1
      let h ← pyInt? hstr
      let rest ← (splitOnChar 'H' dur).get? 1
      pure (h * 3600, rest)
    else do
      let rest ← (splitOnChar 'T' dur).get? 1
      pure ((0 : Int), rest)
  let (secs2, rest2) ←
    if rest1.contains 'M' then do
      let mstr ← (splitOnChar 'M' rest1).get? 0
      let m ← pyInt? mstr
      let rest ← (splitOnChar 'M' rest1).get? 1
      pure (secs1 + m * 60, rest)
    else pure (secs1, rest1)
  if rest2.contains 'S' then do
    let sstr ← (splitOnChar 'S' rest2).get? 0
    let s ← pyInt? sstr
    pure (secs2 + s)
  else pure secs2

/-- Duration of one string: the empty string is falsy and skipped (0), a
parse failure contributes 0 (the `except: pass` arm), otherwise the parsed
seconds. -/
def parse_duration (s : String) : Int :=
  if s = "" then 0 else (parse_duration_core s.toList).getD 0

/-- Per-video seconds contributed to `total_duration_seconds`:
`content_details.get('duration', '')` is empty when absent. -/
def durationOf (v : Video) : Int :=
  match v.duration with
  | none => 0
  | some d => parse_duration d

/-! ## Statistics aggregators -/

/-- The loop state of `calculate_video_averages` (lines 1187-1240). -/
structure AggState where
  total_views : Nat
  total_likes : Nat
  total_comments : Nat
  total_duration_seconds : Int
  view_counts : List Nat
deriving Repr

/-- One iteration of the `for video in videos` loop. -/
def stepVideo (st : AggState) (v : Video) : AggState :=
  { total_views := st.total_views + viewsOf v
    total_likes := st.total_likes + likesOf v
    total_comments := st.total_comments + commentsOf v
    total_duration_seconds := st.total_duration_seconds + durationOf v
    view_counts := st.view_counts ++ [viewsOf v] }

/-- The detailed averages record returned by `calculate_video_averages`.
Integer-valued fields stay `Nat`; float-valued fields are exact `ℚ`. -/
structure VideoAverages where
  count : Nat
  avg_views : ℚ
  avg_likes : ℚ
  avg_comments : ℚ
  engagement_rate : ℚ
  max_views : Nat
  min_views : Nat
  avg_duration_seconds : ℚ
  like_to_view_ratio : ℚ
  comment_to_view_ratio : ℚ
deriving DecidableEq, Repr

/-- Python `min(l)` guarded by `if l else 0` (line 1256). -/
def listMin : List Nat → Nat
  | [] => 0
  | x :: xs => xs.foldl Nat.min x

/-- Python `max(l)` guarded by `if l else 0` (line 1255). -/
def listMax : List Nat → Nat
  | [] => 0
  | x :: xs => xs.foldl Nat.max x

/-- `calculate_video_averages` (youtube_analyzer.py lines 1163-1269): an
empty input returns the all-zero record immediately; otherwise the loop
accumulates totals and the averages, engagement metrics and extrema are
computed from them, every ratio guarded by `if total_views > 0 else 0`.
The inner `if count > 0 else 0` guards on the averages (lines 1244-1247)
and the `if view_counts else 0` guards on the extrema (lines 1255-1256)
are vacuous on this branch — the empty case already returned — and are
folded into the plain expressions. -/
def calculate_video_averages (videos : List Video) : VideoAverages :=
  if videos.isEmpty then
    { count := 0, avg_views := 0, avg_likes := 0, avg_comments := 0,
      engagement_rate := 0, max_views := 0, min_views := 0,
      avg_duration_seconds := 0, like_to_view_ratio := 0,
      comment_to_view_ratio := 0 }
  else
    let st := videos.foldl stepVideo ⟨0, 0, 0, 0, []⟩
    let count := videos.length
    { count := count
      avg_views := (st.total_views : ℚ) / (count : ℚ)
      avg_likes := (st.total_likes : ℚ) / (count : ℚ)
      avg_comments := (st.total_comments : ℚ) / (count : ℚ)
      engagement_rate :=
        if st.total_views > 0 then
          ((st.total_likes + st.total_comments : Nat) : ℚ) / (st.total_views : ℚ)
        else 0
      max_views := listMax st.view_counts
      min_views := listMin st.view_counts
      avg_duration_seconds := (st.total_duration_seconds : ℚ) / (count : ℚ)
      like_to_view_ratio :=
        if st.total_views > 0 then (st.total_likes : ℚ) / (st.total_views : ℚ)
        else 0
      comment_to_view_ratio :=
        if st.total_views > 0 then (st.total_comments : ℚ) / (st.total_views : ℚ)
        else 0 }

/-- The `video_metrics` summary built by `extract_account_metrics`. -/
structure VideoMetrics where
  analyzed_videos_count : Nat
  avg_views : ℚ
  max_views : Nat
  min_views : Nat
  total_views : Nat
  avg_likes : ℚ
  avg_comments : ℚ
  engagement_rate : ℚ
deriving DecidableEq, Repr

/-- The video-metrics section of `extract_account_metrics`
(youtube_analyzer.py lines 588-620), taking `data['video_stats']['items']`
as input. The summary is only built under `if videos:`, so an empty
collection produces no `video_metrics` entry at all — modeled as `none`.
The inner `if videos else 0` guards on lines 599-608 are vacuous under
that branch and folded into the plain expressions. -/
def extract_account_metrics (videos : List Video) : Option VideoMetrics :=
  if videos.isEmpty then none
  else
    let total_views := (videos.map viewsOf).sum
    let total_likes := (videos.map likesOf).sum
    let total_comments := (videos.map commentsOf).sum
    some
      { analyzed_videos_count := videos.length
        avg_views := (total_views : ℚ) / (videos.length : ℚ)
        max_views := listMax (videos.map viewsOf)
        min_views := listMin (videos.map viewsOf)
        total_views := total_views
        avg_likes := (total_likes : ℚ) / (videos.length : ℚ)
        avg_comments := (total_comments : ℚ) / (videos.length : ℚ)
        engagement_rate :=
          if total_views > 0 then
            ((total_likes + total_comments : Nat) : ℚ) / (total_views : ℚ)
          else 0 }

/-! ## Claims C2 and C9 -/

/-- Claim C2, counterexample. The claim states that for the empty video
collection, the video-metrics output of `extract_account_metrics` is an
all-zero summary (count 0, every statistic 0). In fact the summary is
built only under `if videos:`, so for the empty collection no
`video_metrics` entry is produced at all — there is no all-zero record to
return. -/
theorem C2_counterexample : extract_account_metrics [] = none := rfl

/-- Claim C2, amended: for the empty video collection,
`calculate_video_averages` returns the all-zero record (count 0, every
average, ratio and extremum 0) without error or division; and
`extract_account_metrics` also neither errors nor divides by zero, but
omits its video-metrics section entirely instead of returning an all-zero
summary. -/
theorem C2_amended :
    calculate_video_averages [] =
      { count := 0, avg_views := 0, avg_likes := 0, avg_comments := 0,
        engagement_rate := 0, max_views := 0, min_views := 0,
        avg_duration_seconds := 0, like_to_view_ratio := 0,
        comment_to_view_ratio := 0 } ∧
    extract_account_metrics [] = none :=
  ⟨rfl, rfl⟩

/-- A video whose duration string parses in no branch (no `T` section). -/
def vBadDuration : Video := { duration := some "12 minutes" }

/-- Claim C9 (confirmed): the duration parser maps `PT5M13S` to 313
seconds, `PT1H` to 3600 seconds, and `PT` or the empty string to 0
seconds; a missing duration and an unparsable duration both contribute 0
seconds, and the aggregation still completes over such a record (count
still computed, average duration 0). -/
theorem C9_duration :
    parse_duration "PT5M13S" = 313 ∧
    parse_duration "PT1H" = 3600 ∧
    parse_duration "PT" = 0 ∧
    parse_duration "" = 0 ∧
    durationOf { duration := none } = 0 ∧
    (∀ d : String, parse_duration_core d.toList = none →
      parse_duration d = 0) ∧
    (calculate_video_averages [vBadDuration]).count = 1 ∧
    (calculate_video_averages [vBadDuration]).avg_duration_seconds = 0 := by
  refine ⟨by decide, by decide, by decide, by decide, by decide, ?_, ?_, ?_⟩
  · intro d h
    rw [String.toList] at h
    simp [parse_duration, h]
  · decide
  · show ((0 : Int) : ℚ) / ((1 : Nat) : ℚ) = 0
    norm_num

/-- Claim C9, witness: the unparsable-duration clause instantiated at the
concrete string `"12 minutes"`. -/
theorem C9_witness :
    parse_duration_core ("12 minutes".toList) = none ∧
    parse_duration "12 minutes" = 0 :=
  ⟨by decide, C9_duration.2.2.2.2.2.1 "12 minutes" (by decide)⟩

/-! ## Helper lemmas about the aggregation loop -/

/-- The accumulation loop computes the componentwise sums and collects the
view counts in order. -/
lemma foldl_stepVideo (videos : List Video) (st : AggState) :
    (videos.foldl stepVideo st).total_views
        = st.total_views + (videos.map viewsOf).sum ∧
    (videos.foldl stepVideo st).total_likes
        = st.total_likes + (videos.map likesOf).sum ∧
    (videos.foldl stepVideo st).total_comments
        = st.total_comments + (videos.map commentsOf).sum ∧
    (videos.foldl stepVideo st).total_duration_seconds
        = st.total_duration_seconds + (videos.map durationOf).sum ∧
    (videos.foldl stepVideo st).view_counts
        = st.view_counts ++ videos.map viewsOf := by
  induction videos generalizing st with
  | nil => simp
  | cons v vs ih =>
    obtain ⟨h1, h2, h3, h4, h5⟩ := ih (stepVideo st v)
    refine ⟨?_, ?_, ?_, ?_, ?_⟩
    · rw [List.foldl_cons, h1]; simp [stepVideo, add_assoc]
    · rw [List.foldl_cons, h2]; simp [stepVideo, add_assoc]
    · rw [List.foldl_cons, h3]; simp [stepVideo, add_assoc]
    · rw [List.foldl_cons, h4]; simp [stepVideo, add_assoc]
    · rw [List.foldl_cons, h5]; simp [stepVideo]

/-- Every element is bounded by the running foldl maximum, which also
dominates its seed. -/
lemma foldl_max_bounds (l : List Nat) :
    ∀ a : Nat, a ≤ l.foldl Nat.max a ∧ ∀ x ∈ l, x ≤ l.foldl Nat.max a := by
  induction l with
  | nil => simp
  | cons y ys ih =>
    intro a
    refine ⟨le_trans (Nat.le_max_left a y) (ih (Nat.max a y)).1, ?_⟩
    intro x hx
    rcases List.mem_cons.mp hx with rfl | hx
    · exact le_trans (Nat.le_max_right a x) (ih (Nat.max a x)).1
    · exact (ih (Nat.max a y)).2 x hx

/-- Dual of `foldl_max_bounds` for the running minimum. -/
lemma foldl_min_bounds (l : List Nat) :
    ∀ a : Nat, l.foldl Nat.min a ≤ a ∧ ∀ x ∈ l, l.foldl Nat.min a ≤ x := by
  induction l with
  | nil => simp
  | cons y ys ih =>
    intro a
    refine ⟨le_trans (ih (Nat.min a y)).1 (Nat.min_le_left a y), ?_⟩
    intro x hx
    rcases List.mem_cons.mp hx with rfl | hx
    · exact le_trans (ih (Nat.min a x)).1 (Nat.min_le_right a x)
    · exact (ih (Nat.min a y)).2 x hx

lemma listMax_bound (l : List Nat) : ∀ x ∈ l, x ≤ listMax l := by
  cases l with
  | nil => simp
  | cons a as =>
    intro x hx
    rcases List.mem_cons.mp hx with rfl | hx
    · exact (foldl_max_bounds as x).1
    · exact (foldl_max_bounds as a).2 x hx

lemma listMin_bound (l : List Nat) : ∀ x ∈ l, listMin l ≤ x := by
  cases l with
  | nil => simp
  | cons a as =>
    intro x hx
    rcases List.mem_cons.mp hx with rfl | hx
    · exact (foldl_min_bounds as x).1
    · exact (foldl_min_bounds as a).2 x hx

lemma sum_le_length_mul (l : List Nat) (b : Nat) (hb : ∀ x ∈ l, x ≤ b) :
    l.sum ≤ l.length * b := by
  induction l with
  | nil => simp
  | cons x xs ih =>
    have hx := hb x (List.mem_cons_self x xs)
    have hxs := ih (fun y hy => hb y (List.mem_cons_of_mem x hy))
    simp only [List.sum_cons, List.length_cons, Nat.succ_mul]
    omega

lemma length_mul_le_sum (l : List Nat) (b : Nat) (hb : ∀ x ∈ l, b ≤ x) :
    l.length * b ≤ l.sum := by
  induction l with
  | nil => simp
  | cons x xs ih =>
    have hx := hb x (List.mem_cons_self x xs)
    have hxs := ih (fun y hy => hb y (List.mem_cons_of_mem x hy))
    simp only [List.sum_cons, List.length_cons, Nat.succ_mul]
    omega

/-- The exact mean of a nonempty list of naturals lies between its minimum
and its maximum. -/
lemma avg_between (l : List Nat) (h : l ≠ []) :
    (listMin l : ℚ) ≤ (l.sum : ℚ) / (l.length : ℚ) ∧
    (l.sum : ℚ) / (l.length : ℚ) ≤ (listMax l : ℚ) := by
  have hlen : 0 < l.length := List.length_pos.mpr h
  have hlenQ : (0 : ℚ) < (l.length : ℚ) := by exact_mod_cast hlen
  constructor
  · rw [le_div_iff₀ hlenQ]
    have hmin : l.length * listMin l ≤ l.sum :=
      length_mul_le_sum l _ (listMin_bound l)
    calc (listMin l : ℚ) * (l.length : ℚ)
        = ((l.length * listMin l : Nat) : ℚ) := by push_cast; ring
      _ ≤ (l.sum : ℚ) := by exact_mod_cast hmin
  · rw [div_le_iff₀ hlenQ]
    have hmax : l.sum ≤ l.length * listMax l :=
      sum_le_length_mul l _ (listMax_bound l)
    calc (l.sum : ℚ) ≤ ((l.length * listMax l : Nat) : ℚ) := by
          exact_mod_cast hmax
      _ = (listMax l : ℚ) * (l.length : ℚ) := by push_cast; ring

/-- Closed form of `calculate_video_averages` on a nonempty collection. -/
lemma calc_eq (videos : List Video) (h : videos ≠ []) :
    calculate_video_averages videos =
      { count := videos.length
        avg_views := (((videos.map viewsOf).sum : Nat) : ℚ) / (videos.length : ℚ)
        avg_likes := (((videos.map likesOf).sum : Nat) : ℚ) / (videos.length : ℚ)
        avg_comments := (((videos.map commentsOf).sum : Nat) : ℚ) / (videos.length : ℚ)
        engagement_rate :=
          if (videos.map viewsOf).sum > 0 then
            (((videos.map likesOf).sum + (videos.map commentsOf).sum : Nat) : ℚ)
              / (((videos.map viewsOf).sum : Nat) : ℚ)
          else 0
        max_views := listMax (videos.map viewsOf)
        min_views := listMin (videos.map viewsOf)
        avg_duration_seconds :=
          (((videos.map durationOf).sum : Int) : ℚ) / (videos.length : ℚ)
        like_to_view_ratio :=
          if (videos.map viewsOf).sum > 0 then
            (((videos.map likesOf).sum : Nat) : ℚ) / (((videos.map viewsOf).sum : Nat) : ℚ)
          else 0
        comment_to_view_ratio :=
          if (videos.map viewsOf).sum > 0 then
            (((videos.map commentsOf).sum : Nat) : ℚ) / (((videos.map viewsOf).sum : Nat) : ℚ)
          else 0 } := by
  obtain ⟨h1, h2, h3, h4, h5⟩ := foldl_stepVideo videos ⟨0, 0, 0, 0, []⟩
  have hne : videos.isEmpty = false := by
    cases videos with
    | nil => exact absurd rfl h
    | cons v vs => rfl
  simp only [calculate_video_averages, hne, Bool.false_eq_true, if_false,
    h1, h2, h3, h4, h5]
  norm_num

/-- Closed form of the video-metrics section of `extract_account_metrics`
on a nonempty collection. -/
lemma extract_eq (videos : List Video) (h : videos ≠ []) :
    extract_account_metrics videos =
      some
        { analyzed_videos_count := videos.length
          avg_views := (((videos.map viewsOf).sum : Nat) : ℚ) / (videos.length : ℚ)
          max_views := listMax (videos.map viewsOf)
          min_views := listMin (videos.map viewsOf)
          total_views := (videos.map viewsOf).sum
          avg_likes := (((videos.map likesOf).sum : Nat) : ℚ) / (videos.length : ℚ)
          avg_comments := (((videos.map commentsOf).sum : Nat) : ℚ) / (videos.length : ℚ)
          engagement_rate :=
            if (videos.map viewsOf).sum > 0 then
              (((videos.map likesOf).sum + (videos.map commentsOf).sum : Nat) : ℚ)
                / (((videos.map viewsOf).sum : Nat) : ℚ)
            else 0 } := by
  have hne : videos.isEmpty = false := by
    cases videos with
    | nil => exact absurd rfl h
    | cons v vs => rfl
  simp only [extract_account_metrics, hne, Bool.false_eq_true, if_false]

/-! ## Claims C5, C6, C7 -/

/-- Total view count over the collection, as both aggregators sum it. -/
def totalViews (videos : List Video) : Nat := (videos.map viewsOf).sum

/-- Total like count over the collection. -/
def totalLikes (videos : List Video) : Nat := (videos.map likesOf).sum

/-- Claim C5 (confirmed): whenever the summed view count is zero — likes
and comments may be anything — every ratio guarded by
`if total_views > 0` evaluates to 0 in both aggregators, and no division
fault occurs (the division branch is never taken). -/
theorem C5_zero_views (videos : List Video) (h : totalViews videos = 0) :
    (calculate_video_averages videos).engagement_rate = 0 ∧
    (calculate_video_averages videos).like_to_view_ratio = 0 ∧
    (calculate_video_averages videos).comment_to_view_ratio = 0 ∧
    ((extract_account_metrics videos).map VideoMetrics.engagement_rate).getD 0
      = 0 := by
  cases hv : videos with
  | nil => refine ⟨rfl, rfl, rfl, rfl⟩
  | cons v vs =>
    rw [← hv]
    have hne : videos ≠ [] := by rw [hv]; exact List.cons_ne_nil v vs
    have hz : (videos.map viewsOf).sum = 0 := h
    rw [calc_eq videos hne, extract_eq videos hne]
    simp [hz]

/-- A collection with zero total views but nonzero likes and comments. -/
def vids0 : List Video :=
  [{ viewCount := some 0, likeCount := some 5, commentCount := some 3 }]

/-- Claim C5, witness: at a concrete collection whose single video has 0
views but 5 likes and 3 comments, all three ratios are 0. -/
theorem C5_witness :
    totalViews vids0 = 0 ∧ totalLikes vids0 = 5 ∧ (5 : Nat) ≠ 0 ∧
    ((calculate_video_averages vids0).engagement_rate = 0 ∧
     (calculate_video_averages vids0).like_to_view_ratio = 0 ∧
     (calculate_video_averages vids0).comment_to_view_ratio = 0 ∧
     ((extract_account_metrics vids0).map VideoMetrics.engagement_rate).getD 0
       = 0) :=
  ⟨by decide, by decide, by decide, C5_zero_views vids0 (by decide)⟩

/-- Claim C6 (confirmed): on every nonempty collection, both aggregators
report extrema and mean with max_views ≥ avg_views ≥ min_views (equality
possible when all per-video view counts coincide). -/
theorem C6_extrema_mean (videos : List Video) (h : videos ≠ []) :
    (((calculate_video_averages videos).min_views : ℚ)
        ≤ (calculate_video_averages videos).avg_views ∧
      (calculate_video_averages videos).avg_views
        ≤ ((calculate_video_averages videos).max_views : ℚ)) ∧
    (extract_account_metrics videos).elim False
      (fun m => ((m.min_views : ℚ) ≤ m.avg_views ∧
                 m.avg_views ≤ (m.max_views : ℚ))) := by
  have hmap : videos.map viewsOf ≠ [] := by
    cases videos with
    | nil => exact absurd rfl h
    | cons v vs => simp
  have hlen : (videos.map viewsOf).length = videos.length :=
    List.length_map videos viewsOf
  have hb := avg_between (videos.map viewsOf) hmap
  rw [hlen] at hb
  rw [calc_eq videos h, extract_eq videos h]
  exact ⟨⟨hb.1, hb.2⟩, hb.1, hb.2⟩

/-- The three-video collection of the worked scenario: views 100, 50, 10;
likes 10, 5, 1; comments 2, 1, 0. -/
def vids3 : List Video :=
  [{ viewCount := some 100, likeCount := some 10, commentCount := some 2 },
   { viewCount := some 50, likeCount := some 5, commentCount := some 1 },
   { viewCount := some 10, likeCount := some 1, commentCount := some 0 }]

/-- Claim C6, witness: the extrema/mean inequalities at the concrete
three-video collection. -/
theorem C6_witness :
    vids3 ≠ [] ∧
    ((((calculate_video_averages vids3).min_views : ℚ)
        ≤ (calculate_video_averages vids3).avg_views ∧
      (calculate_video_averages vids3).avg_views
        ≤ ((calculate_video_averages vids3).max_views : ℚ)) ∧
     (extract_account_metrics vids3).elim False
       (fun m => ((m.min_views : ℚ) ≤ m.avg_views ∧
                  m.avg_views ≤ (m.max_views : ℚ)))) :=
  ⟨by decide, C6_extrema_mean vids3 (by decide)⟩

/-- Claim C7 (confirmed): on every collection for which
`extract_account_metrics` emits its video-metrics summary (every nonempty
one), that summary agrees with `calculate_video_averages` on all shared
statistics: count, avg_views, avg_likes, avg_comments, engagement_rate,
max_views and min_views. -/
theorem C7_consistency (videos : List Video) (h : videos ≠ []) :
    (extract_account_metrics videos).map VideoMetrics.analyzed_videos_count
        = some (calculate_video_averages videos).count ∧
    (extract_account_metrics videos).map VideoMetrics.avg_views
        = some (calculate_video_averages videos).avg_views ∧
    (extract_account_metrics videos).map VideoMetrics.avg_likes
        = some (calculate_video_averages videos).avg_likes ∧
    (extract_account_metrics videos).map VideoMetrics.avg_comments
        = some (calculate_video_averages videos).avg_comments ∧
    (extract_account_metrics videos).map VideoMetrics.engagement_rate
        = some (calculate_video_averages videos).engagement_rate ∧
    (extract_account_metrics videos).map VideoMetrics.max_views
        = some (calculate_video_averages videos).max_views ∧
    (extract_account_metrics videos).map VideoMetrics.min_views
        = some (calculate_video_averages videos).min_views := by
  rw [calc_eq videos h, extract_eq videos h]
  exact ⟨rfl, rfl, rfl, rfl, rfl, rfl, rfl⟩

/-- Claim C7, witness: the shared statistics agree at the concrete
three-video collection. -/
theorem C7_witness :
    (extract_account_metrics vids3).map VideoMetrics.analyzed_videos_count
        = some (calculate_video_averages vids3).count ∧
    (extract_account_metrics vids3).map VideoMetrics.avg_views
        = some (calculate_video_averages vids3).avg_views ∧
    (extract_account_metrics vids3).map VideoMetrics.avg_likes
        = some (calculate_video_averages vids3).avg_likes ∧
    (extract_account_metrics vids3).map VideoMetrics.avg_comments
        = some (calculate_video_averages vids3).avg_comments ∧
    (extract_account_metrics vids3).map VideoMetrics.engagement_rate
        = some (calculate_video_averages vids3).engagement_rate ∧
    (extract_account_metrics vids3).map VideoMetrics.max_views
        = some (calculate_video_averages vids3).max_views ∧
    (extract_account_metrics vids3).map VideoMetrics.min_views
        = some (calculate_video_averages vids3).min_views :=
  C7_consistency vids3 (by decide)

/-! ## Link normalizer (youtube_analyzer.extract_direct_url, lines 176-201)

The urllib helpers are modeled at their observable behavior on the
strings this source feeds them: `urlparse(u).query` is the text after the
first question mark of the part before the first hash sign; `parse_qs`
splits the query on ampersands, keeps only pairs with an equals sign and
a nonempty value, replaces plus signs by spaces and percent-decodes; the
explicit `unquote(...)` call then percent-decodes the chosen value a
second time. Percent-decoding is modeled at byte granularity (every
payload in this repository is ASCII, where it coincides with urllib). -/

/-- Hexadecimal digit value, upper or lower case. -/
def hexDigitVal? (c : Char) : Option Nat :=
  if '0' ≤ c && c ≤ '9' then some (c.toNat - 48)
  else if 'a' ≤ c && c ≤ 'f' then some (c.toNat - 87)
  else if 'A' ≤ c && c ≤ 'F' then some (c.toNat - 55)
  else none

/-- Model of `urllib.parse.unquote`: a percent sign followed by two hex
digits becomes the encoded byte; any other percent sign is kept as is. -/
def unquoteChars : List Char → List Char
  | [] => []
  | '%' :: a :: b :: rest =>
    match hexDigitVal? a, hexDigitVal? b with
    | some ha, some hb => Char.ofNat (ha * 16 + hb) :: unquoteChars rest
    | _, _ => '%' :: unquoteChars (a :: b :: rest)
  | c :: rest => c :: unquoteChars rest

/-- `s.replace('+', ' ')`, applied by `parse_qs` before decoding. -/
def plusToSpace (l : List Char) : List Char :=
  l.map (fun c => if c = '+' then ' ' else c)

/-- Model of `urlparse(u).query`: the fragment (everything from the first
hash sign) is removed first, then the query is everything after the first
question mark of what remains. -/
def urlQuery (u : List Char) : List Char :=
  let noFrag := (splitOnChar '#' u).headD []
  match splitOnChar '?' noFrag with
  | _ :: q :: qs => joinChar '?' (q :: qs)
  | _ => []

/-- One name/value pair of `parse_qs`: pairs without an equals sign and
pairs with an empty value are dropped (the default
`keep_blank_values=False`); name and value are plus-decoded then
percent-decoded. -/
def qsPair? (pair : List Char) : Option (List Char × List Char) :=
  if pair.contains '=' then
    match splitOnChar '=' pair with
    | name :: v :: vs =>
      let value := joinChar '=' (v :: vs)
      if value.isEmpty then none
      else some (unquoteChars (plusToSpace name),
                 unquoteChars (plusToSpace value))
    | _ => none
  else none

/-- `query_params['q'][0]` guarded by `'q' in query_params`: the first
value associated with the name `q`, if any. -/
def firstQValue? (query : List Char) : Option (List Char) :=
  (((splitOnChar '&' query).filterMap qsPair?).find?
      (fun p => p.1 == ['q'])).map Prod.snd

/-- The redirect-wrapper test and extraction that `extract_direct_url`
performs: the whole URL must contain the substring
`youtube.com/redirect`, and its query string must carry a `q` value. -/
def isExtractable (u : String) : Bool :=
  containsSub ("youtube.com/redirect".toList) u.toList &&
  (firstQValue? (urlQuery u.toList)).isSome

/-- `extract_direct_url` (youtube_analyzer.py lines 176-201): when the URL
contains `youtube.com/redirect` and its query has a `q` parameter, return
that value percent-decoded once more; otherwise (or on any parsing
anomaly) return the input unchanged. -/
def extract_direct_url (u : String) : String :=
  if containsSub ("youtube.com/redirect".toList) u.toList then
    match firstQValue? (urlQuery u.toList) with
    | some v => ⟨unquoteChars v⟩
    | none => u
  else u

/-- When the redirect test or the extraction fails, the URL is returned
unchanged. -/
lemma extract_direct_url_id (u : String) (h : isExtractable u = false) :
    extract_direct_url u = u := by
  unfold extract_direct_url
  unfold isExtractable at h
  rcases Bool.and_eq_false_iff.mp h with hc | hq
  · rw [hc]; rfl
  · cases hm : containsSub ("youtube.com/redirect".toList) u.toList
    · rfl
    · simp only [if_true]
      cases hv : firstQValue? (urlQuery u.toList) with
      | none => rfl
      | some v => rw [hv] at hq; simp at hq

/-- A redirect URL whose `q` payload is itself a redirect-shaped URL. -/
def nestedRedirect : String :=
  "https://www.youtube.com/redirect?q=youtube.com/redirect?q=hi"

/-- Claim C4, counterexample. The claim states
`extract_direct_url (extract_direct_url u) = extract_direct_url u` for
every URL string u. It fails when the extracted `q` value is itself a
redirect-shaped URL: the first application yields
`youtube.com/redirect?q=hi`, which still matches the redirect test, so the
second application extracts again and yields `hi`. -/
theorem C4_counterexample :
    extract_direct_url nestedRedirect = "youtube.com/redirect?q=hi" ∧
    extract_direct_url (extract_direct_url nestedRedirect) = "hi" ∧
    extract_direct_url (extract_direct_url nestedRedirect)
      ≠ extract_direct_url nestedRedirect := by
  refine ⟨by decide, ?_, ?_⟩ <;> decide

/-- Claim C4, amended: `extract_direct_url` is idempotent on every URL
whose resolution is not itself a redirect-wrapper carrying a `q`
parameter — in particular on every URL it leaves unchanged and on every
redirect whose payload is an ordinary URL. (The unamended universal
statement fails only on nested redirect payloads, see the
counterexample.) -/
theorem C4_amended (u : String)
    (h : isExtractable (extract_direct_url u) = false) :
    extract_direct_url (extract_direct_url u) = extract_direct_url u :=
  extract_direct_url_id (extract_direct_url u) h

/-- Claim C4, witness: the percent-encoded scenario link resolves to
`https://example.com`, whose resolution is no longer extractable, so a
second application changes nothing. -/
theorem C4_witness :
    extract_direct_url
        "https://www.youtube.com/redirect?q=https%3A%2F%2Fexample.com"
      = "https://example.com" ∧
    isExtractable
        (extract_direct_url
          "https://www.youtube.com/redirect?q=https%3A%2F%2Fexample.com")
      = false ∧
    extract_direct_url
        (extract_direct_url
          "https://www.youtube.com/redirect?q=https%3A%2F%2Fexample.com")
      = extract_direct_url
          "https://www.youtube.com/redirect?q=https%3A%2F%2Fexample.com" :=
  ⟨by decide, by decide,
    C4_amended "https://www.youtube.com/redirect?q=https%3A%2F%2Fexample.com"
      (by decide)⟩

/-! ## Batch orchestrator and export
(youtube_analyzer.analyze_search_results lines 1064-1106,
 youtube_analyzer.export_to_json lines 1109-1143) -/

/-- One entry of the search-result list, as far as the batch loop reads
it: `channel.get('channel_id')` and `channel.get('title', 'Unknown')`. -/
structure SearchChannel where
  channel_id : String
  title : String
deriving DecidableEq, Repr

/-- One per-channel analysis result, as far as the batch and export code
inspect it: the `metrics.channel_info.title` field when present (it is
what `export_to_json` keys the exported document by, falling back to the
channel id). The remaining sections (channel_info, video_metrics,
video_averages, external_links, recent_videos) are copied through
verbatim by the export and are irrelevant to keying and order. -/
structure ARes where
  title? : Option String
deriving DecidableEq, Repr

/-- A Python dict modeled as an insertion-ordered association list:
assigning to an existing key overwrites its value in place, assigning to
a fresh key appends. -/
def dictInsert {α : Type} (k : String) (v : α) (d : List (String × α)) :
    List (String × α) :=
  if d.any (fun p => p.1 == k) then
    d.map (fun p => if p.1 == k then (k, v) else p)
  else d ++ [(k, v)]

/-- One iteration of a loop that conditionally assigns into a dict. -/
def dictStep {α β : Type} (f : α → Option (String × β))
    (acc : List (String × β)) (x : α) : List (String × β) :=
  match f x with
  | none => acc
  | some kv => dictInsert kv.1 kv.2 acc

/-- A loop over `xs` assigning into an initially empty dict. -/
def dictFold {α β : Type} (f : α → Option (String × β)) (xs : List α) :
    List (String × β) :=
  xs.foldl (dictStep f) []

/-- `analyze_search_results` (lines 1080-1106): one sequential pass over
the search results, analyzing each channel by its id (`analyze` stands
for `analyze_youtube_channel`, whose network effects are a parameter
here; `none` is a falsy result) and storing each truthy result under
`results[channel_id]`. -/
def analyze_search_results (analyze : String → Option ARes)
    (channels : List SearchChannel) : List (String × ARes) :=
  dictFold (fun ch => (analyze ch.channel_id).map
    (fun r => (ch.channel_id, r))) channels

/-- The key `export_to_json` files a channel under (line 1137):
`metrics.get('channel_info', {}).get('title', channel_id)` — the channel
TITLE, with the id only as fallback when no title is present. -/
def exportKey (p : String × ARes) : String := p.2.title?.getD p.1

/-- The `channels` mapping of the document built by `export_to_json`
(lines 1126-1143): one dict assignment per results entry, keyed by
`exportKey`, value carried over from the result. -/
def export_channels (results : List (String × ARes)) :
    List (String × ARes) :=
  dictFold (fun p => some (exportKey p, p.2)) results

/-- Assigning a fresh key appends, preserving insertion order. -/
lemma dictInsert_of_fresh {α : Type} (k : String) (v : α)
    (d : List (String × α)) (h : ∀ p ∈ d, p.1 ≠ k) :
    dictInsert k v d = d ++ [(k, v)] := by
  have : d.any (fun p => p.1 == k) = false := by
    simp only [List.any_eq_false]
    intro p hp
    simpa using h p hp
  simp [dictInsert, this]

/-- A dict-building loop whose emitted keys are pairwise distinct and
avoid the accumulator appends one pair per emitting element, in element
order. -/
lemma dictFold_go {α β : Type} (f : α → Option (String × β)) :
    ∀ (xs : List α) (acc : List (String × β)),
      ((xs.filterMap f).map Prod.fst).Nodup →
      (∀ p ∈ xs.filterMap f, ∀ q ∈ acc, q.1 ≠ p.1) →
      xs.foldl (dictStep f) acc = acc ++ xs.filterMap f := by
  intro xs
  induction xs with
  | nil => intro acc _ _; simp
  | cons x xs ih =>
    intro acc hnd hacc
    cases hfx : f x with
    | none =>
      have hfm : (x :: xs).filterMap f = xs.filterMap f := by
        simp [List.filterMap_cons, hfx]
      rw [hfm] at hnd hacc
      simpa [List.foldl_cons, dictStep, hfx] using ih acc hnd hacc
    | some kv =>
      have hfm : (x :: xs).filterMap f = kv :: xs.filterMap f := by
        simp [List.filterMap_cons, hfx]
      rw [hfm] at hnd hacc
      have hnd' : (kv.1 :: (xs.filterMap f).map Prod.fst).Nodup := by
        simpa using hnd
      have hk1 : kv.1 ∉ (xs.filterMap f).map Prod.fst :=
        (List.nodup_cons.mp hnd').1
      have hnd2 : ((xs.filterMap f).map Prod.fst).Nodup :=
        (List.nodup_cons.mp hnd').2
      have hk : ∀ p ∈ xs.filterMap f, kv.1 ≠ p.1 := by
        intro p hp hEq
        exact hk1 (hEq ▸ List.mem_map_of_mem Prod.fst hp)
      have hins : dictInsert kv.1 kv.2 acc = acc ++ [kv] := by
        have := dictInsert_of_fresh kv.1 kv.2 acc
          (fun p hp => hacc kv (List.mem_cons_self kv _) p hp)
        simpa using this
      have htail : ∀ p ∈ xs.filterMap f, ∀ q ∈ acc ++ [kv], q.1 ≠ p.1 := by
        intro p hp q hq
        rcases List.mem_append.mp hq with hq | hq
        · exact hacc p (List.mem_cons_of_mem kv hp) q hq
        · have : q = kv := by simpa using hq
          subst this
          exact hk p hp
      calc (x :: xs).foldl (dictStep f) acc
          = xs.foldl (dictStep f) (acc ++ [kv]) := by
            simp [List.foldl_cons, dictStep, hfx, hins]
        _ = (acc ++ [kv]) ++ xs.filterMap f := ih (acc ++ [kv]) hnd2 htail
        _ = acc ++ (kv :: xs.filterMap f) := by simp
        _ = acc ++ (x :: xs).filterMap f := by rw [hfm]

/-- With an empty accumulator: a dict-building loop with pairwise distinct
keys is exactly the filterMap of its emitting function. -/
lemma dictFold_eq {α β : Type} (f : α → Option (String × β)) (xs : List α)
    (hnd : ((xs.filterMap f).map Prod.fst).Nodup) :
    dictFold f xs = xs.filterMap f := by
  simpa [dictFold] using dictFold_go f xs [] hnd (by simp)

/-- A filterMap whose function always emits is a map. -/
lemma filterMap_someApplied {α β : Type} (g : α → β) :
    ∀ xs : List α, xs.filterMap (fun x => some (g x)) = xs.map g := by
  intro xs
  induction xs with
  | nil => rfl
  | cons x xs ih => simp [List.filterMap_cons, ih]

/-- The keys emitted by the batch loop form a sublist of the search-result
channel ids (skipping channels whose analysis returned nothing). -/
lemma batch_keys_sublist (analyze : String → Option ARes)
    (channels : List SearchChannel) :
    ((channels.filterMap (fun ch => (analyze ch.channel_id).map
        (fun r => (ch.channel_id, r)))).map Prod.fst).Sublist
      (channels.map SearchChannel.channel_id) := by
  induction channels with
  | nil => simp
  | cons ch chs ih =>
    cases hfx : analyze ch.channel_id with
    | none =>
      simp only [List.filterMap_cons, hfx, List.map_cons, Option.map_none]
      exact ih.cons ch.channel_id
    | some r =>
      simp only [List.filterMap_cons, hfx, List.map_cons, Option.map_some,
        List.map_cons]
      exact ih.cons₂ ch.channel_id

/-- The demonstration analysis used in the C3 theorems: channel UC1
analyzes successfully (reporting the display title Alpha Channel),
everything else is not found. -/
def demoAnalyze : String → Option ARes :=
  fun cid => if cid = "UC1" then some ⟨some "Alpha Channel"⟩ else none

/-- The demonstration search-result list: two channels, of which only the
first analyzes successfully. -/
def demoChannels : List SearchChannel :=
  [⟨"UC1", "Alpha"⟩, ⟨"UC2", "Beta"⟩]

/-- Claim C3, counterexample. The claim states that the exported document,
like the orchestrator result set, is keyed by channel id. The result set
is — but `export_to_json` keys its `channels` mapping by the channel
TITLE (`channel_info.title`, falling back to the id only when no title is
present): at a concrete one-channel result whose title is
`Alpha Channel`, the export key is the title, not the id `UC1`. -/
theorem C3_counterexample :
    (analyze_search_results demoAnalyze demoChannels).map Prod.fst
      = ["UC1"] ∧
    (export_channels (analyze_search_results demoAnalyze demoChannels)).map
        Prod.fst = ["Alpha Channel"] ∧
    "Alpha Channel" ≠ "UC1" := by
  refine ⟨by decide, by decide, by decide⟩

/-- Claim C3, amended: the batch orchestrator result set is a mapping
keyed by channel id, one entry per successfully analyzed channel, in
search order (stated for searches returning pairwise distinct channel
ids, which dict insertion otherwise collapses); the exported document is
the same entries in the same order, but keyed by channel title, with the
id only as fallback when no title is present (stated for pairwise
distinct export keys). -/
theorem C3_amended :
    (∀ (analyze : String → Option ARes) (channels : List SearchChannel),
      (channels.map SearchChannel.channel_id).Nodup →
      analyze_search_results analyze channels
        = channels.filterMap (fun ch => (analyze ch.channel_id).map
            (fun r => (ch.channel_id, r)))) ∧
    (∀ results : List (String × ARes),
      (results.map exportKey).Nodup →
      export_channels results
        = results.map (fun p => (exportKey p, p.2))) := by
  constructor
  · intro analyze channels hnd
    exact dictFold_eq _ channels
      ((batch_keys_sublist analyze channels).nodup hnd)
  · intro results hnd
    have hmap : results.filterMap (fun p => some (exportKey p, p.2))
        = results.map (fun p => (exportKey p, p.2)) :=
      filterMap_someApplied _ results
    have hkeys : ((results.filterMap
        (fun p => some (exportKey p, p.2))).map Prod.fst).Nodup := by
      rw [hmap, List.map_map]
      simpa [Function.comp] using hnd
    rw [export_channels, dictFold_eq _ results hkeys, hmap]

/-- Claim C3, witness: both parts of the amended statement at the
concrete two-channel search (one channel not found) — the result set has
exactly one entry keyed by the found channel id, and the export maps it
under its title. -/
theorem C3_witness :
    ((demoChannels.map SearchChannel.channel_id).Nodup ∧
      analyze_search_results demoAnalyze demoChannels
        = demoChannels.filterMap (fun ch => (demoAnalyze ch.channel_id).map
            (fun r => (ch.channel_id, r)))) ∧
    (([("UC1", (⟨some "Alpha Channel"⟩ : ARes))].map exportKey).Nodup ∧
      export_channels [("UC1", (⟨some "Alpha Channel"⟩ : ARes))]
        = [("UC1", (⟨some "Alpha Channel"⟩ : ARes))].map
            (fun p => (exportKey p, p.2))) :=
  ⟨⟨by decide, C3_amended.1 demoAnalyze demoChannels (by decide)⟩,
   ⟨by decide, C3_amended.2 [("UC1", (⟨some "Alpha Channel"⟩ : ARes))]
      (by decide)⟩⟩

end YTA
